import Mathlib

/-!
# Verification of the venus-backend credential core

Shallow embedding of the authentication/reset state machine implemented by
the Express server (the complete variant in `src/unnamed/part_000`, with the
persisted schema — table `users1`, `email VARCHAR UNIQUE NOT NULL` — taken
from the `CREATE TABLE` block in `src/server.js`).  The other server copy
embedded in `src/server.js` after the document marker is a stale duplicate
that cannot execute (it contains a mid-file `import` statement and a second
`const PORT` declaration, both syntax errors in Node), so the running
program's behaviour is the one embedded here.

External collaborators are modelled by their contracts:
* bcrypt (`hash`/`compare`) as a salted digest whose verification accepts
  exactly the hashed plaintext;
* jsonwebtoken (`sign`/`verify`) as a symbolically signed claims record with
  a 1-hour expiry;
* express-validator `isEmail` as an executable format check;
* nodemailer delivery as a boolean outcome parameter plus an event log of
  attempted sends.

Time is an abstract instant in seconds (`Nat`); `NOW() + INTERVAL '5
minutes'` becomes `now + 300`, and the JWT `expiresIn: '1h'` becomes
`now + 3600`.
-/

namespace Venus

/-- Model of a bcrypt digest (spec §4.2): the salt makes distinct calls
produce distinct digests; `compare` accepts exactly the hashed plaintext. -/
structure BHash where
  salt : Nat
  pw : String
deriving DecidableEq, Repr

/-- `bcrypt.hash(password, SALT_ROUNDS)` with the salt drawn for this call. -/
def bhash (salt : Nat) (p : String) : BHash := ⟨salt, p⟩

/-- `bcrypt.compare(plaintext, digest)`. -/
def bcompare (p : String) (h : BHash) : Bool := p == h.pw

/-- One row of table `users1` (src/server.js, CREATE TABLE block):
`id SERIAL PRIMARY KEY, email UNIQUE NOT NULL, password NOT NULL,
reset_otp VARCHAR(10), reset_expires TIMESTAMP`. -/
structure Account where
  id : Nat
  email : String
  password : BHash
  reset_otp : Option String
  reset_expires : Option Nat
deriving DecidableEq, Repr

/-- The `users1` table plus the SERIAL sequence for `id`. -/
structure Store where
  rows : List Account
  nextId : Nat
deriving DecidableEq, Repr

/-- `SELECT * FROM users1 WHERE email = $1` (first row of the result). -/
def findByEmail (st : Store) (email : String) : Option Account :=
  st.rows.find? (fun r => r.email == email)

/-- `SELECT * FROM users1 WHERE id = $1` (first row of the result). -/
def findById (st : Store) (id : Nat) : Option Account :=
  st.rows.find? (fun r => r.id == id)

/-- `INSERT INTO users1 (email, password) VALUES ($1, $2)`.  The UNIQUE
constraint on `email` makes the store reject a duplicate atomically; the
new row gets the next SERIAL id and NULL reset columns. -/
def insertUser (st : Store) (email : String) (h : BHash) : Except Unit Store :=
  if st.rows.any (fun r => r.email == email) then
    .error ()
  else
    .ok ⟨st.rows ++ [⟨st.nextId, email, h, none, none⟩], st.nextId + 1⟩

/-- Number of rows of the table holding a given email. -/
def countEmail (st : Store) (email : String) : Nat :=
  (st.rows.filter (fun r => r.email == email)).length

/-- Session-token claims: the JWT payload `{ id, email }` signed at login. -/
structure Claims where
  id : Nat
  email : String
deriving DecidableEq, Repr

/-- Model of a signed JWT (spec §4.3): payload, expiry instant, and the
signing secret standing in for the MAC. -/
structure Token where
  id : Nat
  email : String
  exp : Nat
  sig : String
deriving DecidableEq, Repr

/-- `JWT_SECRET` fallback value from the source configuration. -/
def JWT_SECRET : String := "4578ppoo9098989988925155222"

/-- `jwt.sign({ id, email }, secret, { expiresIn: '1h' })` at instant `now`. -/
def jwtSign (id : Nat) (email : String) (secret : String) (now : Nat) : Token :=
  ⟨id, email, now + 3600, secret⟩

/-- `jwt.verify(token, secret)` at instant `now`: accepts iff the signature
matches the secret and the expiry is still in the future. -/
def jwtVerify (t : Token) (secret : String) (now : Nat) : Option Claims :=
  if t.sig == secret && now < t.exp then some ⟨t.id, t.email⟩ else none

/-- Response bodies the handlers serialize. -/
inductive ApiBody where
  /-- `res.json({ errors: errors.array() })` from express-validator. -/
  | validationErrors : ApiBody
  /-- `res.json({ error: e })`. -/
  | errMsg (e : String) : ApiBody
  /-- `res.json({ message: m })`. -/
  | message (m : String) : ApiBody
  /-- Login success body `{ token, user: { id, email } }`. -/
  | tokenUser (token : Token) (id : Nat) (email : String) : ApiBody
  /-- Profile body `{ user: { id, email } }`. -/
  | userOnly (id : Nat) (email : String) : ApiBody
deriving DecidableEq, Repr

/-- An HTTP response: status code plus serialized body. -/
structure ApiResp where
  status : Nat
  body : ApiBody
deriving DecidableEq, Repr

/-- Model of express-validator `body('email').isEmail()`: exactly one `@`,
non-empty local part, non-empty domain containing a dot.  (Library code,
abstracted; none of the verified properties depends on its exact shape.) -/
def isEmail (s : String) : Bool :=
  let cs := s.data
  let lp := cs.takeWhile (fun c => c != '@')
  match cs.dropWhile (fun c => c != '@') with
  | '@' :: dom => !lp.isEmpty && !dom.isEmpty && dom.contains '.' && !dom.contains '@'
  | _ => false

/-- `POST /api/auth/signup` (part_000 lines 151–174): validate email format
and 6-character password minimum, reject an already-registered email with
400 "User already exists", otherwise hash and insert; a store rejection
surfaces as the catch-all 500 "Signup failed". -/
def signup (st : Store) (salt : Nat) (email password : String) : ApiResp × Store :=
  if !(isEmail email && decide (6 ≤ password.length)) then
    (⟨400, .validationErrors⟩, st)
  else
    match findByEmail st email with
    | some _ => (⟨400, .errMsg "User already exists"⟩, st)
    | none =>
      match insertUser st email (bhash salt password) with
      | .ok st' => (⟨200, .message "Signup successful"⟩, st')
      | .error _ => (⟨500, .errMsg "Signup failed"⟩, st)

/-- `POST /api/auth/login` (part_000 lines 177–199): lookup by email, then
bcrypt compare; both failures return 401 "Invalid credentials"; success
returns the signed token plus the `{ id, email }` projection. -/
def login (st : Store) (now : Nat) (email password : String) : ApiResp :=
  match findByEmail st email with
  | none => ⟨401, .errMsg "Invalid credentials"⟩
  | some user =>
    if bcompare password user.password then
      ⟨200, .tokenUser (jwtSign user.id user.email JWT_SECRET now) user.id user.email⟩
    else
      ⟨401, .errMsg "Invalid credentials"⟩

/-- `UPDATE users1 SET reset_otp = $1, reset_expires = NOW() + INTERVAL
'5 minutes' WHERE email = $2`. -/
def setResetCode (st : Store) (email otp : String) (expiry : Nat) : Store :=
  ⟨st.rows.map (fun r =>
    if r.email == email then
      { r with reset_otp := some otp, reset_expires := some expiry }
    else r), st.nextId⟩

/-- `POST /api/auth/request-reset` (part_000 lines 202–227): absent email →
404 before any write or send; otherwise persist OTP + 5-minute expiry, then
attempt delivery (`delivered` is the Notifier outcome); a failed send
returns 500 with the reset state already persisted.  The third component
logs the `sendOtpEmail` calls made. -/
def requestReset (st : Store) (now : Nat) (otp : String) (delivered : Bool)
    (email : String) : ApiResp × Store × List (String × String) :=
  match findByEmail st email with
  | none => (⟨404, .errMsg "User not found"⟩, st, [])
  | some _ =>
    let st' := setResetCode st email otp (now + 300)
    if delivered then
      (⟨200, .message "OTP sent to email"⟩, st', [(email, otp)])
    else
      (⟨500, .errMsg "Failed to send OTP email"⟩, st', [(email, otp)])

/-- The WHERE clause of the verify-reset lookup: `email=$1 AND reset_otp=$2
AND reset_expires > NOW()` with SQL NULL semantics (a NULL column matches
nothing). -/
def otpMatches (r : Account) (email otp : String) (now : Nat) : Bool :=
  r.email == email
    && (match r.reset_otp with | some c => c == otp | none => false)
    && (match r.reset_expires with | some e => decide (now < e) | none => false)

/-- `POST /api/auth/verify-reset` (part_000 lines 230–249): atomic match of
email + code + unexpired; no match → 400 "Invalid or expired OTP"; on match
a single UPDATE sets the new hash and NULLs both reset columns. -/
def verifyReset (st : Store) (now salt : Nat) (email otp newPassword : String) :
    ApiResp × Store :=
  match st.rows.find? (fun r => otpMatches r email otp now) with
  | none => (⟨400, .errMsg "Invalid or expired OTP"⟩, st)
  | some _ =>
    (⟨200, .message "Password reset successful"⟩,
      ⟨st.rows.map (fun r =>
        if r.email == email then
          { r with password := bhash salt newPassword,
                   reset_otp := none, reset_expires := none }
        else r), st.nextId⟩)

/-- `POST /api/auth/change-password` (part_000 lines 252–267), behind the
`verifyToken` middleware: invalid token → 401; then lookup by the token's
`id` claim (an absent row makes the JS dereference `undefined` and the
catch returns 500); wrong old password → 400 "Old password incorrect";
otherwise a single UPDATE sets the new hash. -/
def changePassword (st : Store) (now salt : Nat) (tok : Token)
    (oldPassword newPassword : String) : ApiResp × Store :=
  match jwtVerify tok JWT_SECRET now with
  | none => (⟨401, .errMsg "Invalid token"⟩, st)
  | some claims =>
    match findById st claims.id with
    | none => (⟨500, .errMsg "Change password failed"⟩, st)
    | some user =>
      if bcompare oldPassword user.password then
        (⟨200, .message "Password changed"⟩,
          ⟨st.rows.map (fun r =>
            if r.id == claims.id then { r with password := bhash salt newPassword }
            else r), st.nextId⟩)
      else
        (⟨400, .errMsg "Old password incorrect"⟩, st)

/-- `GET /api/auth/me` (part_000 lines 270–281), behind `verifyToken`:
returns the `{ id, email }` projection of the token's account, 404 when the
row no longer exists. -/
def getMe (st : Store) (now : Nat) (tok : Token) : ApiResp :=
  match jwtVerify tok JWT_SECRET now with
  | none => ⟨401, .errMsg "Invalid token"⟩
  | some claims =>
    match findById st claims.id with
    | none => ⟨404, .errMsg "User not found"⟩
    | some u => ⟨200, .userOnly u.id u.email⟩

end Venus

namespace Venus

/-! ## Helper lemmas about the store primitives -/

theorem bcompare_bhash_iff (p q : String) (s : Nat) :
    bcompare p (bhash s q) = true ↔ p = q := by
  simp [bcompare, bhash]

theorem findByEmail_none_iff (st : Store) (e : String) :
    findByEmail st e = none ↔ ∀ r ∈ st.rows, ¬ r.email = e := by
  simp [findByEmail, List.find?_eq_none]

theorem insertUser_of_absent (st : Store) (e : String) (h : BHash)
    (hf : findByEmail st e = none) :
    insertUser st e h = .ok ⟨st.rows ++ [⟨st.nextId, e, h, none, none⟩], st.nextId + 1⟩ := by
  have h1 : ∀ r ∈ st.rows, ¬ r.email = e := (findByEmail_none_iff st e).mp hf
  have h2 : st.rows.any (fun r => r.email == e) = false := by
    simp only [List.any_eq_false]
    intro r hr
    simpa using h1 r hr
  simp [insertUser, h2]

theorem insertUser_of_present (st : Store) (e : String) (h : BHash)
    (hp : ∃ r ∈ st.rows, r.email = e) :
    insertUser st e h = .error () := by
  have h2 : st.rows.any (fun r => r.email == e) = true := by
    simp only [List.any_eq_true]
    obtain ⟨r, hr, he⟩ := hp
    exact ⟨r, hr, by simpa using he⟩
  simp [insertUser, h2]

theorem countEmail_pos_iff (st : Store) (e : String) :
    1 ≤ countEmail st e ↔ ∃ r ∈ st.rows, r.email = e := by
  simp [countEmail, Nat.one_le_iff_ne_zero, List.length_eq_zero]

/-- A `find?` with a stronger predicate still returns the same witness when
the stronger predicate holds at it. -/
theorem find?_restrict {α : Type} (l : List α) (p q : α → Bool) (a : α)
    (himp : ∀ r, q r = true → p r = true) (hp : l.find? p = some a)
    (hq : q a = true) : l.find? q = some a := by
  induction l with
  | nil => simp at hp
  | cons x xs ih =>
    by_cases hx : p x = true
    · rw [List.find?_cons_of_pos _ hx] at hp
      cases hp
      exact List.find?_cons_of_pos _ hq
    · rw [List.find?_cons_of_neg _ hx] at hp
      have hqx : ¬ q x = true := fun hc => hx (himp x hc)
      rw [List.find?_cons_of_neg _ hqx]
      exact ih hp

/-- `find?` commutes with a row update that does not change the predicate. -/
theorem find?_map_of_pred_comm {α : Type} (l : List α) (p : α → Bool) (f : α → α)
    (hf : ∀ r, p (f r) = p r) :
    (l.map f).find? p = (l.find? p).map f := by
  rw [List.find?_map]
  have he : (p ∘ f) = p := funext hf
  rw [he]

/-! ## C1, C4, C6, C7 -/

/-- C1: for every valid (email, password) pair — email in valid format,
password at least 6 characters — in a store where the email is not yet
registered, Signup succeeds (creating the account with the next SERIAL id),
and a subsequent Login with the same credentials succeeds, returning a
token that the verifier accepts with id/email claims equal to the created
account's id and email. -/
theorem signup_login_roundtrip (st : Store) (salt now : Nat) (email pw : String)
    (hv : isEmail email = true) (hl : 6 ≤ pw.length)
    (hf : findByEmail st email = none) :
    (signup st salt email pw).1.status = 200 ∧
    findByEmail (signup st salt email pw).2 email
      = some ⟨st.nextId, email, bhash salt pw, none, none⟩ ∧
    login (signup st salt email pw).2 now email pw
      = ⟨200, .tokenUser (jwtSign st.nextId email JWT_SECRET now) st.nextId email⟩ ∧
    jwtVerify (jwtSign st.nextId email JWT_SECRET now) JWT_SECRET now
      = some ⟨st.nextId, email⟩ := by
  have hins := insertUser_of_absent st email (bhash salt pw) hf
  have hsig : signup st salt email pw
      = (⟨200, .message "Signup successful"⟩,
         ⟨st.rows ++ [⟨st.nextId, email, bhash salt pw, none, none⟩], st.nextId + 1⟩) := by
    simp [signup, hv, hl, hf, hins]
  have hfind : findByEmail (signup st salt email pw).2 email
      = some ⟨st.nextId, email, bhash salt pw, none, none⟩ := by
    rw [hsig]
    unfold findByEmail at hf ⊢
    simp [List.find?_append, hf]
  refine ⟨by rw [hsig], hfind, ?_, ?_⟩
  · simp [login, hfind, bcompare, bhash]
  · simp [jwtVerify, jwtSign]

theorem signup_login_roundtrip_witness :
    isEmail "a@x.com" = true ∧ 6 ≤ ("secret1" : String).length ∧
    findByEmail ⟨[], 1⟩ "a@x.com" = none ∧
    ((signup ⟨[], 1⟩ 7 "a@x.com" "secret1").1.status = 200 ∧
     findByEmail (signup ⟨[], 1⟩ 7 "a@x.com" "secret1").2 "a@x.com"
       = some ⟨1, "a@x.com", bhash 7 "secret1", none, none⟩ ∧
     login (signup ⟨[], 1⟩ 7 "a@x.com" "secret1").2 0 "a@x.com" "secret1"
       = ⟨200, .tokenUser (jwtSign 1 "a@x.com" JWT_SECRET 0) 1 "a@x.com"⟩ ∧
     jwtVerify (jwtSign 1 "a@x.com" JWT_SECRET 0) JWT_SECRET 0
       = some ⟨1, "a@x.com"⟩) :=
  ⟨by decide, by decide, by decide,
   signup_login_roundtrip ⟨[], 1⟩ 7 0 "a@x.com" "secret1" (by decide) (by decide) (by decide)⟩

/-- C4: RequestReset for an email with no account returns 404 NOT_FOUND,
leaves the store untouched (no OTP state persisted) and attempts no email
delivery. -/
theorem requestReset_absent (st : Store) (now : Nat) (otp : String)
    (delivered : Bool) (email : String) (hf : findByEmail st email = none) :
    requestReset st now otp delivered email
      = (⟨404, .errMsg "User not found"⟩, st, []) := by
  simp [requestReset, hf]

theorem requestReset_absent_witness :
    findByEmail ⟨[], 1⟩ "ghost@x.com" = none ∧
    requestReset ⟨[], 1⟩ 42 "123456" true "ghost@x.com"
      = (⟨404, .errMsg "User not found"⟩, ⟨[], 1⟩, []) :=
  ⟨by decide, requestReset_absent ⟨[], 1⟩ 42 "123456" true "ghost@x.com" (by decide)⟩

/-- C6: a Login that fails because the email has no account and a Login
that fails because the password does not verify produce the same response —
status 401 with body error "Invalid credentials" — so the two causes are
indistinguishable to the caller. -/
theorem login_failure_indistinguishable (st₁ st₂ : Store) (now₁ now₂ : Nat)
    (e₁ p₁ e₂ p₂ : String) (u : Account)
    (h₁ : findByEmail st₁ e₁ = none)
    (h₂ : findByEmail st₂ e₂ = some u)
    (hm : bcompare p₂ u.password = false) :
    login st₁ now₁ e₁ p₁ = ⟨401, .errMsg "Invalid credentials"⟩ ∧
    login st₂ now₂ e₂ p₂ = ⟨401, .errMsg "Invalid credentials"⟩ ∧
    login st₁ now₁ e₁ p₁ = login st₂ now₂ e₂ p₂ := by
  refine ⟨by simp [login, h₁], by simp [login, h₂, hm], ?_⟩
  simp [login, h₁, h₂, hm]

theorem login_failure_indistinguishable_witness :
    findByEmail ⟨[], 1⟩ "ghost@x.com" = none ∧
    findByEmail ⟨[⟨1, "a@x.com", bhash 7 "secret1", none, none⟩], 2⟩ "a@x.com"
      = some ⟨1, "a@x.com", bhash 7 "secret1", none, none⟩ ∧
    bcompare "wrongpw" (bhash 7 "secret1") = false ∧
    (login ⟨[], 1⟩ 0 "ghost@x.com" "whatever" = ⟨401, .errMsg "Invalid credentials"⟩ ∧
     login ⟨[⟨1, "a@x.com", bhash 7 "secret1", none, none⟩], 2⟩ 5 "a@x.com" "wrongpw"
       = ⟨401, .errMsg "Invalid credentials"⟩ ∧
     login ⟨[], 1⟩ 0 "ghost@x.com" "whatever"
       = login ⟨[⟨1, "a@x.com", bhash 7 "secret1", none, none⟩], 2⟩ 5 "a@x.com" "wrongpw") :=
  ⟨by decide, by decide, by decide,
   login_failure_indistinguishable ⟨[], 1⟩
     ⟨[⟨1, "a@x.com", bhash 7 "secret1", none, none⟩], 2⟩ 0 5
     "ghost@x.com" "whatever" "a@x.com" "wrongpw"
     ⟨1, "a@x.com", bhash 7 "secret1", none, none⟩
     (by decide) (by decide) (by decide)⟩

end Venus

namespace Venus

/-! ## Update-commutation lemmas -/

theorem findByEmail_setResetCode (st : Store) (e otp : String) (exp : Nat) :
    findByEmail (setResetCode st e otp exp) e
      = (findByEmail st e).map (fun r =>
          if r.email == e then
            { r with reset_otp := some otp, reset_expires := some exp }
          else r) := by
  unfold findByEmail setResetCode
  exact find?_map_of_pred_comm _ _ _
    (fun r => by by_cases h : (r.email == e) = true <;> simp [h])

theorem setResetCode_rows_email (st : Store) (e otp : String) (exp : Nat) :
    ∀ r ∈ (setResetCode st e otp exp).rows, r.email = e →
      r.reset_otp = some otp ∧ r.reset_expires = some exp := by
  intro r hr hre
  obtain ⟨r₀, h₀, rfl⟩ := List.mem_map.mp hr
  by_cases h : (r₀.email == e) = true
  · simp [h]
  · simp only [if_neg h] at hre ⊢
    exact absurd (by simpa using hre) h

/-! ## C7 -/

/-- C7: for a registered account, RequestReset persists the new OTP and its
5-minute expiry before attempting delivery, so when the Notifier fails the
flow returns 500 DELIVERY_FAILED while the OTP state stays persisted (one
delivery attempt was made), and a later re-request simply overwrites the
pending OTP with the fresh one. -/
theorem requestReset_delivery_failure (st : Store) (now : Nat)
    (otp email : String) (u : Account) (hf : findByEmail st email = some u) :
    (requestReset st now otp false email).1 = ⟨500, .errMsg "Failed to send OTP email"⟩ ∧
    (requestReset st now otp false email).2.2 = [(email, otp)] ∧
    (∀ r ∈ (requestReset st now otp false email).2.1.rows, r.email = email →
      r.reset_otp = some otp ∧ r.reset_expires = some (now + 300)) ∧
    (∀ now₂ otp₂ d₂,
      ∀ r ∈ (requestReset (requestReset st now otp false email).2.1 now₂ otp₂ d₂ email).2.1.rows,
        r.email = email → r.reset_otp = some otp₂ ∧ r.reset_expires = some (now₂ + 300)) := by
  have hreq : requestReset st now otp false email
      = (⟨500, .errMsg "Failed to send OTP email"⟩,
         setResetCode st email otp (now + 300), [(email, otp)]) := by
    simp [requestReset, hf]
  refine ⟨by rw [hreq], by rw [hreq], ?_, ?_⟩
  · rw [hreq]
    exact setResetCode_rows_email st email otp (now + 300)
  · intro now₂ otp₂ d₂
    rw [hreq]
    have hf₂ : findByEmail (setResetCode st email otp (now + 300)) email
        = some (if u.email == email then
            { u with reset_otp := some otp, reset_expires := some (now + 300) }
          else u) := by
      rw [findByEmail_setResetCode, hf]
      rfl
    intro r hr
    revert r
    unfold requestReset
    rw [hf₂]
    by_cases hd : d₂ = true
    · subst hd
      simpa using setResetCode_rows_email (setResetCode st email otp (now + 300))
        email otp₂ (now₂ + 300)
    · have hd' : d₂ = false := by revert hd; cases d₂ <;> simp
      subst hd'
      simpa using setResetCode_rows_email (setResetCode st email otp (now + 300))
        email otp₂ (now₂ + 300)

theorem requestReset_delivery_failure_witness :
    findByEmail ⟨[⟨1, "a@x.com", bhash 7 "secret1", none, none⟩], 2⟩ "a@x.com"
      = some ⟨1, "a@x.com", bhash 7 "secret1", none, none⟩ ∧
    ((requestReset ⟨[⟨1, "a@x.com", bhash 7 "secret1", none, none⟩], 2⟩ 40 "654321" false "a@x.com").1
       = ⟨500, .errMsg "Failed to send OTP email"⟩ ∧
     (requestReset ⟨[⟨1, "a@x.com", bhash 7 "secret1", none, none⟩], 2⟩ 40 "654321" false "a@x.com").2.2
       = [("a@x.com", "654321")] ∧
     (∀ r ∈ (requestReset ⟨[⟨1, "a@x.com", bhash 7 "secret1", none, none⟩], 2⟩ 40 "654321" false "a@x.com").2.1.rows,
        r.email = "a@x.com" → r.reset_otp = some "654321" ∧ r.reset_expires = some (40 + 300)) ∧
     (∀ now₂ otp₂ d₂,
       ∀ r ∈ (requestReset (requestReset ⟨[⟨1, "a@x.com", bhash 7 "secret1", none, none⟩], 2⟩
                 40 "654321" false "a@x.com").2.1 now₂ otp₂ d₂ "a@x.com").2.1.rows,
         r.email = "a@x.com" → r.reset_otp = some otp₂ ∧ r.reset_expires = some (now₂ + 300))) :=
  ⟨by decide,
   requestReset_delivery_failure ⟨[⟨1, "a@x.com", bhash 7 "secret1", none, none⟩], 2⟩
     40 "654321" "a@x.com" ⟨1, "a@x.com", bhash 7 "secret1", none, none⟩ (by decide)⟩

end Venus

namespace Venus

theorem clearReset_rows_email (rows : List Account) (e npw : String) (salt : Nat) :
    ∀ r ∈ rows.map (fun r =>
        if r.email == e then
          { r with password := bhash salt npw, reset_otp := none, reset_expires := none }
        else r),
      r.email = e →
        r.password = bhash salt npw ∧ r.reset_otp = none ∧ r.reset_expires = none := by
  intro r hr hre
  obtain ⟨r₀, h₀, rfl⟩ := List.mem_map.mp hr
  by_cases h : (r₀.email == e) = true
  · simp [h]
  · simp only [if_neg h] at hre ⊢
    exact absurd (by simpa using hre) h

/-! ## C2 -/

/-- C2: for a registered account, RequestReset followed by VerifyReset with
the issued OTP inside the 5-minute window succeeds, and the same logical
operation that persists the new password hash also clears `reset_otp` and
`reset_expires`; a second VerifyReset with the same OTP value then fails
with 400 "Invalid or expired OTP" — the OTP is accepted exactly once. -/
theorem otp_single_use (st : Store) (now t salt : Nat) (otp email npw : String)
    (u : Account) (hf : findByEmail st email = some u) (ht : t < now + 300) :
    (requestReset st now otp true email).1 = ⟨200, .message "OTP sent to email"⟩ ∧
    (verifyReset (requestReset st now otp true email).2.1 t salt email otp npw).1
      = ⟨200, .message "Password reset successful"⟩ ∧
    (∀ r ∈ (verifyReset (requestReset st now otp true email).2.1 t salt email otp npw).2.rows,
      r.email = email →
        r.password = bhash salt npw ∧ r.reset_otp = none ∧ r.reset_expires = none) ∧
    (∀ t₂ salt₂ npw₂,
      (verifyReset (verifyReset (requestReset st now otp true email).2.1 t salt email otp npw).2
        t₂ salt₂ email otp npw₂).1 = ⟨400, .errMsg "Invalid or expired OTP"⟩) := by
  have hue : (u.email == email) = true := by
    have hf' : st.rows.find? (fun r => r.email == email) = some u := hf
    simpa using List.find?_some hf'
  have hreq : requestReset st now otp true email
      = (⟨200, .message "OTP sent to email"⟩,
         setResetCode st email otp (now + 300), [(email, otp)]) := by
    simp [requestReset, hf]
  have hfe : findByEmail (setResetCode st email otp (now + 300)) email
      = some { u with reset_otp := some otp, reset_expires := some (now + 300) } := by
    rw [findByEmail_setResetCode, hf]
    have hee : u.email = email := by simpa using hue
    simp [hee]
  have hq : otpMatches { u with reset_otp := some otp, reset_expires := some (now + 300) }
      email otp t = true := by
    simp [otpMatches, hue, ht]
  have himp : ∀ r : Account, otpMatches r email otp t = true → (r.email == email) = true := by
    intro r h
    simp only [otpMatches, Bool.and_eq_true] at h
    exact h.1.1
  have hfe' : (setResetCode st email otp (now + 300)).rows.find? (fun r => r.email == email)
      = some { u with reset_otp := some otp, reset_expires := some (now + 300) } := hfe
  have hfq : (setResetCode st email otp (now + 300)).rows.find?
      (fun r => otpMatches r email otp t)
      = some { u with reset_otp := some otp, reset_expires := some (now + 300) } :=
    find?_restrict _ (fun r => r.email == email) _ _ himp hfe' hq
  have hver : verifyReset (setResetCode st email otp (now + 300)) t salt email otp npw
      = (⟨200, .message "Password reset successful"⟩,
         ⟨(setResetCode st email otp (now + 300)).rows.map (fun r =>
            if r.email == email then
              { r with password := bhash salt npw, reset_otp := none, reset_expires := none }
            else r), (setResetCode st email otp (now + 300)).nextId⟩) := by
    simp [verifyReset, hfq]
  have hnone : ∀ t₂ otp₂,
      ((setResetCode st email otp (now + 300)).rows.map (fun r =>
        if r.email == email then
          { r with password := bhash salt npw, reset_otp := none, reset_expires := none }
        else r)).find? (fun r => otpMatches r email otp₂ t₂) = none := by
    intro t₂ otp₂
    rw [List.find?_eq_none]
    intro r hr hc
    obtain ⟨r₀, h₀, rfl⟩ := List.mem_map.mp hr
    by_cases h : (r₀.email == email) = true
    · simp [otpMatches, h] at hc
    · simp [otpMatches, h] at hc
  refine ⟨by rw [hreq], ?_, ?_, ?_⟩
  · rw [hreq]
    simp only []
    rw [hver]
  · rw [hreq]
    simp only []
    rw [hver]
    exact clearReset_rows_email _ email npw salt
  · intro t₂ salt₂ npw₂
    rw [hreq]
    simp only []
    rw [hver]
    simp only [verifyReset]
    rw [hnone t₂ otp]

theorem otp_single_use_witness :
    findByEmail ⟨[⟨1, "a@x.com", bhash 7 "secret1", none, none⟩], 2⟩ "a@x.com"
      = some ⟨1, "a@x.com", bhash 7 "secret1", none, none⟩ ∧
    (20 : Nat) < 10 + 300 ∧
    ((requestReset ⟨[⟨1, "a@x.com", bhash 7 "secret1", none, none⟩], 2⟩ 10 "111222" true "a@x.com").1
       = ⟨200, .message "OTP sent to email"⟩ ∧
     (verifyReset (requestReset ⟨[⟨1, "a@x.com", bhash 7 "secret1", none, none⟩], 2⟩
         10 "111222" true "a@x.com").2.1 20 9 "a@x.com" "111222" "newpw").1
       = ⟨200, .message "Password reset successful"⟩ ∧
     (∀ r ∈ (verifyReset (requestReset ⟨[⟨1, "a@x.com", bhash 7 "secret1", none, none⟩], 2⟩
         10 "111222" true "a@x.com").2.1 20 9 "a@x.com" "111222" "newpw").2.rows,
       r.email = "a@x.com" →
         r.password = bhash 9 "newpw" ∧ r.reset_otp = none ∧ r.reset_expires = none) ∧
     (∀ t₂ salt₂ npw₂,
       (verifyReset (verifyReset (requestReset ⟨[⟨1, "a@x.com", bhash 7 "secret1", none, none⟩], 2⟩
           10 "111222" true "a@x.com").2.1 20 9 "a@x.com" "111222" "newpw").2
         t₂ salt₂ "a@x.com" "111222" npw₂).1 = ⟨400, .errMsg "Invalid or expired OTP"⟩)) :=
  ⟨by decide, by decide,
   otp_single_use ⟨[⟨1, "a@x.com", bhash 7 "secret1", none, none⟩], 2⟩ 10 20 9
     "111222" "a@x.com" "newpw" ⟨1, "a@x.com", bhash 7 "secret1", none, none⟩
     (by decide) (by decide)⟩

end Venus

namespace Venus

/-! ## C5 -/

/-- C5: for an account with a stored OTP, VerifyReset submitted at or after
the stored expiry fails with 400 "Invalid or expired OTP" even when the
submitted code equals the stored code, and in general the lookup matches
exactly when the submitted code equals the stored one AND the expiry lies
strictly in the future.  The hypothesis that every row carrying this email
is the found account reflects the store's UNIQUE email constraint. -/
theorem verifyReset_requires_code_and_future_expiry (st : Store) (now salt : Nat)
    (email code npw : String) (ex : Nat) (u : Account)
    (hf : findByEmail st email = some u)
    (huniq : ∀ r ∈ st.rows, r.email = email → r = u)
    (hcode : u.reset_otp = some code) (hexp : u.reset_expires = some ex)
    (hlate : ex ≤ now) :
    verifyReset st now salt email code npw = (⟨400, .errMsg "Invalid or expired OTP"⟩, st) ∧
    ∀ c now₂, ((verifyReset st now₂ salt email c npw).1.status = 200 ↔ (code = c ∧ now₂ < ex)) := by
  have hf' : st.rows.find? (fun r => r.email == email) = some u := hf
  have hue : (u.email == email) = true := by simpa using List.find?_some hf'
  have hkey : ∀ c now₂, st.rows.find? (fun r => otpMatches r email c now₂)
      = if otpMatches u email c now₂ then some u else none := by
    intro c now₂
    by_cases h : otpMatches u email c now₂ = true
    · rw [if_pos h]
      refine find?_restrict st.rows (fun r => r.email == email) _ u ?_ hf' h
      intro r hrq
      simp only [otpMatches, Bool.and_eq_true] at hrq
      exact hrq.1.1
    · rw [if_neg h, List.find?_eq_none]
      intro r hr hc
      have hre : r.email = email := by
        simp only [otpMatches, Bool.and_eq_true] at hc
        simpa using hc.1.1
      exact h ((huniq r hr hre) ▸ hc)
  constructor
  · have hm : otpMatches u email code now = false := by
      simp [otpMatches, hue, hcode, hexp]
      omega
    unfold verifyReset
    rw [hkey code now, if_neg (by simp [hm])]
  · intro c now₂
    have hst : (verifyReset st now₂ salt email c npw).1.status = 200
        ↔ otpMatches u email c now₂ = true := by
      by_cases h : otpMatches u email c now₂ = true
      · unfold verifyReset
        rw [hkey c now₂, if_pos h]
        simp [h]
      · unfold verifyReset
        rw [hkey c now₂, if_neg (by simp [h])]
        simp [h]
    rw [hst]
    simp [otpMatches, hue, hcode, hexp]

theorem verifyReset_requires_code_and_future_expiry_witness :
    findByEmail ⟨[⟨1, "a@x.com", bhash 2 "oldpw1", some "123456", some 100⟩], 2⟩ "a@x.com"
      = some ⟨1, "a@x.com", bhash 2 "oldpw1", some "123456", some 100⟩ ∧
    (∀ r ∈ ([⟨1, "a@x.com", bhash 2 "oldpw1", some "123456", some 100⟩] : List Account),
      r.email = "a@x.com" → r = ⟨1, "a@x.com", bhash 2 "oldpw1", some "123456", some 100⟩) ∧
    (100 : Nat) ≤ 200 ∧
    (verifyReset ⟨[⟨1, "a@x.com", bhash 2 "oldpw1", some "123456", some 100⟩], 2⟩
        200 5 "a@x.com" "123456" "np"
      = (⟨400, .errMsg "Invalid or expired OTP"⟩,
         ⟨[⟨1, "a@x.com", bhash 2 "oldpw1", some "123456", some 100⟩], 2⟩) ∧
     ∀ c now₂,
       ((verifyReset ⟨[⟨1, "a@x.com", bhash 2 "oldpw1", some "123456", some 100⟩], 2⟩
           now₂ 5 "a@x.com" c "np").1.status = 200 ↔ ("123456" = c ∧ now₂ < 100))) :=
  ⟨by decide, by decide, by decide,
   verifyReset_requires_code_and_future_expiry
     ⟨[⟨1, "a@x.com", bhash 2 "oldpw1", some "123456", some 100⟩], 2⟩ 200 5
     "a@x.com" "123456" "np" 100 ⟨1, "a@x.com", bhash 2 "oldpw1", some "123456", some 100⟩
     (by decide) (by decide) (by decide) (by decide) (by decide)⟩

end Venus

namespace Venus

/-! ## C8 -/

/-- The joint state invariant of spec §3: `reset_expires` is NULL whenever
`reset_otp` is NULL. -/
def ResetInv (st : Store) : Prop :=
  ∀ r ∈ st.rows, r.reset_otp = none → r.reset_expires = none

theorem resetInv_insert (st : Store) (e : String) (h : BHash) (st' : Store)
    (hi : ResetInv st) (heq : insertUser st e h = .ok st') : ResetInv st' := by
  unfold insertUser at heq
  split at heq
  · cases heq
  · injection heq with h'
    subst h'
    intro r hr
    rcases List.mem_append.mp hr with h1 | h1
    · exact hi r h1
    · rcases List.mem_singleton.mp h1 with rfl
      intro
      rfl

theorem resetInv_signup (st : Store) (salt : Nat) (e p : String) (hi : ResetInv st) :
    ResetInv (signup st salt e p).2 := by
  unfold signup
  split
  · exact hi
  · split
    · exact hi
    · split
      · rename_i st' heq
        exact resetInv_insert st e (bhash salt p) st' hi heq
      · exact hi

theorem resetInv_setResetCode (st : Store) (e otp : String) (exp : Nat)
    (hi : ResetInv st) : ResetInv (setResetCode st e otp exp) := by
  intro r hr
  obtain ⟨r₀, h₀, rfl⟩ := List.mem_map.mp hr
  by_cases h : (r₀.email == e) = true
  · simp [h]
  · simp only [if_neg h]
    exact hi r₀ h₀

theorem resetInv_requestReset (st : Store) (now : Nat) (otp : String) (d : Bool)
    (e : String) (hi : ResetInv st) : ResetInv (requestReset st now otp d e).2.1 := by
  unfold requestReset
  cases hfind : findByEmail st e
  · simp only [hfind]
    exact hi
  · simp only [hfind]
    cases d
    · exact resetInv_setResetCode st e otp (now + 300) hi
    · exact resetInv_setResetCode st e otp (now + 300) hi

theorem resetInv_verifyReset (st : Store) (now salt : Nat) (e otp npw : String)
    (hi : ResetInv st) : ResetInv (verifyReset st now salt e otp npw).2 := by
  unfold verifyReset
  cases hfind : st.rows.find? (fun r => otpMatches r e otp now)
  · simp only [hfind]
    exact hi
  · simp only [hfind]
    intro r hr
    obtain ⟨r₀, h₀, rfl⟩ := List.mem_map.mp hr
    by_cases h : (r₀.email == e) = true
    · simp [h]
    · simp only [if_neg h]
      exact hi r₀ h₀

theorem resetInv_changePassword (st : Store) (now salt : Nat) (tok : Token)
    (opw npw : String) (hi : ResetInv st) :
    ResetInv (changePassword st now salt tok opw npw).2 := by
  unfold changePassword
  cases hv : jwtVerify tok JWT_SECRET now
  · simp only [hv]
    exact hi
  · rename_i claims
    simp only [hv]
    cases hid : findById st claims.id
    · simp only [hid]
      exact hi
    · rename_i user
      simp only [hid]
      by_cases hm : bcompare opw user.password = true
      · simp only [hm, if_true]
        intro r hr
        obtain ⟨r₀, h₀, rfl⟩ := List.mem_map.mp hr
        by_cases h : (r₀.id == claims.id) = true
        · simp only [if_pos h]
          exact hi r₀ h₀
        · simp only [if_neg h]
          exact hi r₀ h₀
      · have hm' : bcompare opw user.password = false := by
          revert hm
          cases bcompare opw user.password <;> simp
        simp only [hm']
        simp only [Bool.false_eq_true, if_false]
        exact hi

/-- C8: the joint invariant — `reset_expires` is null whenever `reset_otp`
is null — holds in any store satisfying it (in particular every account
created by Signup starts with both fields null) and is preserved by every
store-mutating operation of the core: Signup, RequestReset, VerifyReset
and ChangePassword.  Login and GetProfile perform no store writes (their
embeddings return no store), so they preserve it trivially: each write
either sets `reset_otp`/`reset_expires` together (RequestReset), clears
them together (VerifyReset), or leaves both untouched. -/
theorem resetInv_preserved (st : Store) (salt now : Nat) (tok : Token)
    (e p otp npw opw np₂ : String) (d : Bool) (hi : ResetInv st) :
    ResetInv (signup st salt e p).2 ∧
    ResetInv (requestReset st now otp d e).2.1 ∧
    ResetInv (verifyReset st now salt e otp npw).2 ∧
    ResetInv (changePassword st now salt tok opw np₂).2 :=
  ⟨resetInv_signup st salt e p hi,
   resetInv_requestReset st now otp d e hi,
   resetInv_verifyReset st now salt e otp npw hi,
   resetInv_changePassword st now salt tok opw np₂ hi⟩

theorem resetInv_preserved_witness :
    ResetInv ⟨[], 1⟩ ∧
    (ResetInv (signup ⟨[], 1⟩ 1 "a@x.com" "secret1").2 ∧
     ResetInv (requestReset ⟨[], 1⟩ 2 "123456" true "a@x.com").2.1 ∧
     ResetInv (verifyReset ⟨[], 1⟩ 2 1 "a@x.com" "123456" "x").2 ∧
     ResetInv (changePassword ⟨[], 1⟩ 2 1 (jwtSign 1 "a@x.com" JWT_SECRET 0) "y" "z").2) :=
  ⟨fun r hr => absurd hr (List.not_mem_nil r),
   resetInv_preserved ⟨[], 1⟩ 1 2 (jwtSign 1 "a@x.com" JWT_SECRET 0)
     "a@x.com" "secret1" "123456" "x" "y" "z" true
     (fun r hr => absurd hr (List.not_mem_nil r))⟩

end Venus

namespace Venus

/-! ## C9 -/

/-- C9 (counterexample to the claim as stated): with `oldPassword` equal to
`newPassword`, ChangePassword succeeds under all of the claim's hypotheses
(valid session token, correct current password), yet the subsequent Login
with the old password does NOT fail — it returns status 200, because the
old password verifies against the new hash.  Run: Signup, then
ChangePassword with old = new = "secret1", then Login with "secret1". -/
theorem changePassword_old_eq_new_cx :
    (changePassword (signup ⟨[], 1⟩ 5 "a@x.com" "secret1").2 0 6
        (jwtSign 1 "a@x.com" JWT_SECRET 0) "secret1" "secret1").1.status = 200 ∧
    login (changePassword (signup ⟨[], 1⟩ 5 "a@x.com" "secret1").2 0 6
        (jwtSign 1 "a@x.com" JWT_SECRET 0) "secret1" "secret1").2 1 "a@x.com" "secret1"
      ≠ ⟨401, .errMsg "Invalid credentials"⟩ ∧
    (login (changePassword (signup ⟨[], 1⟩ 5 "a@x.com" "secret1").2 0 6
        (jwtSign 1 "a@x.com" JWT_SECRET 0) "secret1" "secret1").2 1 "a@x.com" "secret1").status
      = 200 := by
  decide

/-- C9 (amended): provided the new password differs from the old one, a
ChangePassword with a valid session token and the correct current password
returns 200 and replaces the stored hash, so a subsequent Login with the
new password succeeds and a Login with the old password fails with 401
"Invalid credentials"; and a ChangePassword whose oldPassword does not
verify against the current hash returns 400 "Old password incorrect" and
leaves the store unchanged. -/
theorem changePassword_rotates_credentials (st : Store) (now now₂ salt : Nat)
    (tok : Token) (claims : Claims) (u : Account) (opw npw : String)
    (hv : jwtVerify tok JWT_SECRET now = some claims)
    (hid : findById st claims.id = some u)
    (hem : findByEmail st u.email = some u)
    (hold : bcompare opw u.password = true)
    (hne : opw ≠ npw) :
    (changePassword st now salt tok opw npw).1 = ⟨200, .message "Password changed"⟩ ∧
    login (changePassword st now salt tok opw npw).2 now₂ u.email npw
      = ⟨200, .tokenUser (jwtSign u.id u.email JWT_SECRET now₂) u.id u.email⟩ ∧
    login (changePassword st now salt tok opw npw).2 now₂ u.email opw
      = ⟨401, .errMsg "Invalid credentials"⟩ ∧
    (∀ bad, bcompare bad u.password = false →
      changePassword st now salt tok bad npw = (⟨400, .errMsg "Old password incorrect"⟩, st)) := by
  have hid' : st.rows.find? (fun r => r.id == claims.id) = some u := hid
  have huid : (u.id == claims.id) = true := by simpa using List.find?_some hid'
  have hcp : changePassword st now salt tok opw npw
      = (⟨200, .message "Password changed"⟩,
         ⟨st.rows.map (fun r =>
            if r.id == claims.id then { r with password := bhash salt npw } else r),
          st.nextId⟩) := by
    unfold changePassword
    rw [hv]
    simp only []
    rw [hid]
    simp only [hold, if_true]
  have hfe : findByEmail
      (⟨st.rows.map (fun r =>
          if r.id == claims.id then { r with password := bhash salt npw } else r),
        st.nextId⟩ : Store) u.email
      = some { u with password := bhash salt npw } := by
    unfold findByEmail
    rw [find?_map_of_pred_comm _ _ _
      (fun r => by by_cases h : (r.id == claims.id) = true <;> simp [h])]
    have hem' : st.rows.find? (fun r => r.email == u.email) = some u := hem
    rw [hem']
    have hii : u.id = claims.id := by simpa using huid
    simp [hii]
  refine ⟨by rw [hcp], ?_, ?_, ?_⟩
  · rw [hcp]
    simp only []
    unfold login
    rw [hfe]
    simp [bcompare, bhash]
  · rw [hcp]
    simp only []
    unfold login
    rw [hfe]
    have : bcompare opw (bhash salt npw) = false := by
      simp [bcompare, bhash, hne]
    simp [this]
  · intro bad hbad
    unfold changePassword
    rw [hv]
    simp only []
    rw [hid]
    simp [hbad]

theorem changePassword_rotates_credentials_witness :
    jwtVerify (jwtSign 1 "a@x.com" JWT_SECRET 0) JWT_SECRET 0 = some ⟨1, "a@x.com"⟩ ∧
    findById ⟨[⟨1, "a@x.com", bhash 5 "secret1", none, none⟩], 2⟩ 1
      = some ⟨1, "a@x.com", bhash 5 "secret1", none, none⟩ ∧
    findByEmail ⟨[⟨1, "a@x.com", bhash 5 "secret1", none, none⟩], 2⟩ "a@x.com"
      = some ⟨1, "a@x.com", bhash 5 "secret1", none, none⟩ ∧
    bcompare "secret1" (bhash 5 "secret1") = true ∧
    "secret1" ≠ "secret2" ∧
    ((changePassword ⟨[⟨1, "a@x.com", bhash 5 "secret1", none, none⟩], 2⟩ 0 6
        (jwtSign 1 "a@x.com" JWT_SECRET 0) "secret1" "secret2").1
       = ⟨200, .message "Password changed"⟩ ∧
     login (changePassword ⟨[⟨1, "a@x.com", bhash 5 "secret1", none, none⟩], 2⟩ 0 6
        (jwtSign 1 "a@x.com" JWT_SECRET 0) "secret1" "secret2").2 9 "a@x.com" "secret2"
       = ⟨200, .tokenUser (jwtSign 1 "a@x.com" JWT_SECRET 9) 1 "a@x.com"⟩ ∧
     login (changePassword ⟨[⟨1, "a@x.com", bhash 5 "secret1", none, none⟩], 2⟩ 0 6
        (jwtSign 1 "a@x.com" JWT_SECRET 0) "secret1" "secret2").2 9 "a@x.com" "secret1"
       = ⟨401, .errMsg "Invalid credentials"⟩ ∧
     (∀ bad, bcompare bad (bhash 5 "secret1") = false →
       changePassword ⟨[⟨1, "a@x.com", bhash 5 "secret1", none, none⟩], 2⟩ 0 6
           (jwtSign 1 "a@x.com" JWT_SECRET 0) bad "secret2"
         = (⟨400, .errMsg "Old password incorrect"⟩,
            ⟨[⟨1, "a@x.com", bhash 5 "secret1", none, none⟩], 2⟩))) :=
  ⟨by decide, by decide, by decide, by decide, by decide,
   changePassword_rotates_credentials
     ⟨[⟨1, "a@x.com", bhash 5 "secret1", none, none⟩], 2⟩ 0 9 6
     (jwtSign 1 "a@x.com" JWT_SECRET 0) ⟨1, "a@x.com"⟩
     ⟨1, "a@x.com", bhash 5 "secret1", none, none⟩ "secret1" "secret2"
     (by decide) (by decide) (by decide) (by decide) (by decide)⟩

end Venus

namespace Venus

/-! ## C10 -/

/-- C10: neither VerifyReset nor ChangePassword validates the length of
`newPassword`: with a matching unexpired OTP, VerifyReset accepts the empty
string as the new password and stores its hash, and ChangePassword does the
same — while Signup rejects any password shorter than 6 characters
(including the empty string) with a 400 validation error. -/
theorem reset_bypasses_password_min_length :
    (signup ⟨[], 1⟩ 9 "b@x.com" "").1 = ⟨400, .validationErrors⟩ ∧
    (signup ⟨[], 1⟩ 9 "b@x.com" "12345").1 = ⟨400, .validationErrors⟩ ∧
    (verifyReset ⟨[⟨1, "a@x.com", bhash 3 "secret1", some "123456", some 100⟩], 2⟩
        50 4 "a@x.com" "123456" "").1.status = 200 ∧
    findByEmail (verifyReset ⟨[⟨1, "a@x.com", bhash 3 "secret1", some "123456", some 100⟩], 2⟩
        50 4 "a@x.com" "123456" "").2 "a@x.com"
      = some ⟨1, "a@x.com", bhash 4 "", none, none⟩ ∧
    (changePassword ⟨[⟨1, "a@x.com", bhash 3 "secret1", none, none⟩], 2⟩ 50 8
        (jwtSign 1 "a@x.com" JWT_SECRET 0) "secret1" "").1.status = 200 ∧
    findById (changePassword ⟨[⟨1, "a@x.com", bhash 3 "secret1", none, none⟩], 2⟩ 50 8
        (jwtSign 1 "a@x.com" JWT_SECRET 0) "secret1" "").2 1
      = some ⟨1, "a@x.com", bhash 8 "", none, none⟩ := by
  decide

end Venus

namespace Venus

/-! ## C3: duplicate signups, sequential and concurrent

The signup handler performs two store interactions: the duplicate-check
SELECT and the INSERT (which the `users1` UNIQUE email constraint makes
atomic: it rejects a duplicate row instead of inserting it).  To reason
about concurrent duplicate signups we model each in-flight request by a
program counter over these two atomic interactions and let an arbitrary
scheduler interleave two requests. -/

/-- Program counter of one in-flight signup request (validation already
passed): `ready` before the duplicate-check SELECT, `checked dup` between
the SELECT and the INSERT, `done` once a response is produced. -/
inductive FlowSt where
  | ready : FlowSt
  | checked (dup : Bool) : FlowSt
  | done (resp : ApiResp) : FlowSt
deriving DecidableEq, Repr

/-- Whether a request has produced its response. -/
def FlowSt.isDone : FlowSt → Bool
  | .done _ => true
  | _ => false

/-- One atomic store interaction of the signup handler (part_000 lines
159–172): the SELECT records whether the email exists; then either the 400
duplicate response, or the INSERT — atomically rejected by the store's
UNIQUE constraint when a row with the email already exists, which the
handler's catch turns into the 500 response. -/
def flowStep (email pw : String) (salt : Nat) : FlowSt → Store → FlowSt × Store
  | .ready, st => (.checked (findByEmail st email).isSome, st)
  | .checked dup, st =>
    if dup then
      (.done ⟨400, .errMsg "User already exists"⟩, st)
    else
      match insertUser st email (bhash salt pw) with
      | .ok st' => (.done ⟨200, .message "Signup successful"⟩, st')
      | .error _ => (.done ⟨500, .errMsg "Signup failed"⟩, st)
  | .done r, st => (.done r, st)

/-- Two concurrent signup requests for the same email: each scheduler entry
picks which request performs its next atomic store interaction (`true` for
the first request); stepping a finished request is a no-op. -/
def runSched (email : String) (p₁ p₂ : String) (s₁ s₂ : Nat) :
    List Bool → FlowSt × FlowSt × Store → FlowSt × FlowSt × Store
  | [], sys => sys
  | b :: rest, (f₁, f₂, st) =>
    if b then
      let (f₁', st') := flowStep email p₁ s₁ f₁ st
      runSched email p₁ p₂ s₁ s₂ rest (f₁', f₂, st')
    else
      let (f₂', st') := flowStep email p₂ s₂ f₂ st
      runSched email p₁ p₂ s₁ s₂ rest (f₁, f₂', st')

/-- A request in this state has observed (or created) a row with the email:
it has responded, or its SELECT saw a duplicate. -/
def sawOrDone (f : FlowSt) : Prop := f.isDone = true ∨ f = .checked true

theorem countEmail_eq_zero_iff (st : Store) (e : String) :
    countEmail st e = 0 ↔ findByEmail st e = none := by
  rw [findByEmail_none_iff]
  constructor
  · intro h r hr hre
    have h1 := (countEmail_pos_iff st e).mpr ⟨r, hr, hre⟩
    omega
  · intro h
    by_contra hc
    obtain ⟨r, hr, hre⟩ := (countEmail_pos_iff st e).mp (Nat.one_le_iff_ne_zero.mpr hc)
    exact h r hr hre

theorem findByEmail_isSome_iff (st : Store) (e : String) :
    (findByEmail st e).isSome = true ↔ 1 ≤ countEmail st e := by
  rw [countEmail_pos_iff]
  unfold findByEmail
  rw [List.find?_isSome]
  constructor
  · rintro ⟨r, hr, hp⟩
    exact ⟨r, hr, by simpa using hp⟩
  · rintro ⟨r, hr, he⟩
    exact ⟨r, hr, by simpa using he⟩

theorem countEmail_insert_ok (st st' : Store) (e : String) (h : BHash)
    (heq : insertUser st e h = .ok st') :
    countEmail st e = 0 ∧ countEmail st' e = 1 ∧
    st'.rows = st.rows ++ [⟨st.nextId, e, h, none, none⟩] := by
  unfold insertUser at heq
  split at heq
  · cases heq
  · rename_i hany
    injection heq with h'
    subst h'
    have hzero : countEmail st e = 0 := by
      rw [countEmail_eq_zero_iff, findByEmail_none_iff]
      intro r hr hre
      exact hany (List.any_eq_true.mpr ⟨r, hr, by simpa using hre⟩)
    refine ⟨hzero, ?_, rfl⟩
    show (List.filter (fun r => r.email == e)
      (st.rows ++ [(⟨st.nextId, e, h, none, none⟩ : Account)])).length = 1
    rw [List.filter_append, List.length_append]
    have h0 : (List.filter (fun r => r.email == e) st.rows).length = 0 := hzero
    rw [h0]
    simp

theorem countEmail_insert_err (st : Store) (e : String) (h : BHash)
    (heq : insertUser st e h = .error ()) : 1 ≤ countEmail st e := by
  unfold insertUser at heq
  split at heq
  · rename_i hany
    obtain ⟨r, hr, he⟩ := List.any_eq_true.mp hany
    exact (countEmail_pos_iff st e).mpr ⟨r, hr, by simpa using he⟩
  · cases heq

theorem flowStep_inv (email pw : String) (salt : Nat) (f : FlowSt) (st : Store)
    (hc : countEmail st email ≤ 1)
    (hf : sawOrDone f → 1 ≤ countEmail st email) :
    countEmail (flowStep email pw salt f st).2 email ≤ 1 ∧
    countEmail st email ≤ countEmail (flowStep email pw salt f st).2 email ∧
    (sawOrDone (flowStep email pw salt f st).1 →
      1 ≤ countEmail (flowStep email pw salt f st).2 email) := by
  cases f with
  | ready =>
    refine ⟨hc, Nat.le_refl _, ?_⟩
    intro hs
    rcases hs with hd | hck
    · simp [flowStep, FlowSt.isDone] at hd
    · have hsome : (findByEmail st email).isSome = true := by
        have : FlowSt.checked (findByEmail st email).isSome = FlowSt.checked true := hck
        injection this
      exact (findByEmail_isSome_iff st email).mp hsome
  | checked dup =>
    cases dup with
    | true =>
      refine ⟨hc, Nat.le_refl _, ?_⟩
      intro _
      exact hf (Or.inr rfl)
    | false =>
      simp only [flowStep, Bool.false_eq_true, if_false]
      cases hins : insertUser st email (bhash salt pw) with
      | ok st' =>
        obtain ⟨h0, h1, _⟩ := countEmail_insert_ok st st' email (bhash salt pw) hins
        simp only [hins]
        exact ⟨by omega, by omega, fun _ => by omega⟩
      | error u =>
        cases u
        have h1 := countEmail_insert_err st email (bhash salt pw) hins
        simp only [hins]
        exact ⟨hc, Nat.le_refl _, fun _ => h1⟩
  | done r =>
    exact ⟨hc, Nat.le_refl _, hf⟩

theorem runSched_inv (email p₁ p₂ : String) (s₁ s₂ : Nat) (sched : List Bool)
    (f₁ f₂ : FlowSt) (st : Store)
    (hc : countEmail st email ≤ 1)
    (h₁ : sawOrDone f₁ → 1 ≤ countEmail st email)
    (h₂ : sawOrDone f₂ → 1 ≤ countEmail st email) :
    countEmail (runSched email p₁ p₂ s₁ s₂ sched (f₁, f₂, st)).2.2 email ≤ 1 ∧
    (sawOrDone (runSched email p₁ p₂ s₁ s₂ sched (f₁, f₂, st)).1 →
      1 ≤ countEmail (runSched email p₁ p₂ s₁ s₂ sched (f₁, f₂, st)).2.2 email) ∧
    (sawOrDone (runSched email p₁ p₂ s₁ s₂ sched (f₁, f₂, st)).2.1 →
      1 ≤ countEmail (runSched email p₁ p₂ s₁ s₂ sched (f₁, f₂, st)).2.2 email) := by
  induction sched generalizing f₁ f₂ st with
  | nil => exact ⟨hc, h₁, h₂⟩
  | cons b rest ih =>
    cases b with
    | true =>
      obtain ⟨hc', hmono, h₁'⟩ := flowStep_inv email p₁ s₁ f₁ st hc h₁
      have h₂' : sawOrDone f₂ → 1 ≤ countEmail (flowStep email p₁ s₁ f₁ st).2 email :=
        fun hs => Nat.le_trans (h₂ hs) hmono
      simpa [runSched] using
        ih (flowStep email p₁ s₁ f₁ st).1 f₂ (flowStep email p₁ s₁ f₁ st).2 hc' h₁' h₂'
    | false =>
      obtain ⟨hc', hmono, h₂'⟩ := flowStep_inv email p₂ s₂ f₂ st hc h₂
      have h₁' : sawOrDone f₁ → 1 ≤ countEmail (flowStep email p₂ s₂ f₂ st).2 email :=
        fun hs => Nat.le_trans (h₁ hs) hmono
      simpa [runSched] using
        ih f₁ (flowStep email p₂ s₂ f₂ st).1 (flowStep email p₂ s₂ f₂ st).2 hc' h₁' h₂'

end Venus

namespace Venus

/-- C3: (1) a validated Signup for an email that is already registered
fails with 400 "User already exists" and leaves the store unchanged;
(2) for every interleaving of the store interactions of two concurrent
signups with the same (fresh) email, once both requests have responded
exactly one account with that email exists — the store's atomic UNIQUE
rejection enforces this; (3) in particular, under the racing schedule in
which both duplicate-check SELECTs run before either INSERT — so the
orchestrator-level check-then-insert catches nothing — the store rejects
the second INSERT atomically (that request answers 500 "Signup failed")
and exactly one account exists. -/
theorem signup_duplicate_unique (st : Store) (salt s₁ s₂ : Nat)
    (email pw p₁ p₂ : String) (u : Account)
    (hv : isEmail email = true) (hl : 6 ≤ pw.length)
    (hdup : findByEmail st email = some u) :
    signup st salt email pw = (⟨400, .errMsg "User already exists"⟩, st) ∧
    (∀ (st₀ : Store) (sched : List Bool), countEmail st₀ email = 0 →
      (runSched email p₁ p₂ s₁ s₂ sched (.ready, .ready, st₀)).1.isDone = true →
      (runSched email p₁ p₂ s₁ s₂ sched (.ready, .ready, st₀)).2.1.isDone = true →
      countEmail (runSched email p₁ p₂ s₁ s₂ sched (.ready, .ready, st₀)).2.2 email = 1) ∧
    (∀ st₀ : Store, findByEmail st₀ email = none →
      (runSched email p₁ p₂ s₁ s₂ [true, false, true, false] (.ready, .ready, st₀)).1
        = .done ⟨200, .message "Signup successful"⟩ ∧
      (runSched email p₁ p₂ s₁ s₂ [true, false, true, false] (.ready, .ready, st₀)).2.1
        = .done ⟨500, .errMsg "Signup failed"⟩ ∧
      countEmail
        (runSched email p₁ p₂ s₁ s₂ [true, false, true, false] (.ready, .ready, st₀)).2.2
        email = 1) := by
  have hready : ¬ sawOrDone FlowSt.ready := by
    rintro (hd | hck)
    · simp [FlowSt.isDone] at hd
    · simp at hck
  refine ⟨by simp [signup, hv, hl, hdup], ?_, ?_⟩
  · intro st₀ sched h0 hd₁ hd₂
    obtain ⟨hle, hw₁, hw₂⟩ := runSched_inv email p₁ p₂ s₁ s₂ sched .ready .ready st₀
      (by omega) (fun hs => absurd hs hready) (fun hs => absurd hs hready)
    have hge := hw₁ (Or.inl hd₁)
    omega
  · intro st₀ hf₀
    have hins := insertUser_of_absent st₀ email (bhash s₁ p₁) hf₀
    have hpres : insertUser
        ⟨st₀.rows ++ [⟨st₀.nextId, email, bhash s₁ p₁, none, none⟩], st₀.nextId + 1⟩
        email (bhash s₂ p₂) = .error () := by
      apply insertUser_of_present
      exact ⟨⟨st₀.nextId, email, bhash s₁ p₁, none, none⟩, by simp, rfl⟩
    have hcount := (countEmail_insert_ok st₀ _ email (bhash s₁ p₁) hins).2.1
    refine ⟨?_, ?_, ?_⟩ <;>
      simp [runSched, flowStep, hf₀, hins, hpres, hcount]

theorem signup_duplicate_unique_witness :
    isEmail "a@x.com" = true ∧ 6 ≤ ("secret1" : String).length ∧
    findByEmail ⟨[⟨1, "a@x.com", bhash 7 "hunter2", none, none⟩], 2⟩ "a@x.com"
      = some ⟨1, "a@x.com", bhash 7 "hunter2", none, none⟩ ∧
    (signup ⟨[⟨1, "a@x.com", bhash 7 "hunter2", none, none⟩], 2⟩ 3 "a@x.com" "secret1"
       = (⟨400, .errMsg "User already exists"⟩,
          ⟨[⟨1, "a@x.com", bhash 7 "hunter2", none, none⟩], 2⟩) ∧
     (∀ (st₀ : Store) (sched : List Bool), countEmail st₀ "a@x.com" = 0 →
       (runSched "a@x.com" "pw111111" "pw222222" 4 5 sched (.ready, .ready, st₀)).1.isDone = true →
       (runSched "a@x.com" "pw111111" "pw222222" 4 5 sched (.ready, .ready, st₀)).2.1.isDone = true →
       countEmail (runSched "a@x.com" "pw111111" "pw222222" 4 5 sched (.ready, .ready, st₀)).2.2
         "a@x.com" = 1) ∧
     (∀ st₀ : Store, findByEmail st₀ "a@x.com" = none →
       (runSched "a@x.com" "pw111111" "pw222222" 4 5 [true, false, true, false]
           (.ready, .ready, st₀)).1 = .done ⟨200, .message "Signup successful"⟩ ∧
       (runSched "a@x.com" "pw111111" "pw222222" 4 5 [true, false, true, false]
           (.ready, .ready, st₀)).2.1 = .done ⟨500, .errMsg "Signup failed"⟩ ∧
       countEmail (runSched "a@x.com" "pw111111" "pw222222" 4 5 [true, false, true, false]
           (.ready, .ready, st₀)).2.2 "a@x.com" = 1)) :=
  ⟨by decide, by decide, by decide,
   signup_duplicate_unique ⟨[⟨1, "a@x.com", bhash 7 "hunter2", none, none⟩], 2⟩ 3 4 5
     "a@x.com" "secret1" "pw111111" "pw222222"
     ⟨1, "a@x.com", bhash 7 "hunter2", none, none⟩
     (by decide) (by decide) (by decide)⟩

end Venus
